import Mathlib

/-!
Verification of the authentication/token subsystem of a FastAPI users
service.  The Python source (src/app) is shallowly embedded: SQLAlchemy
tables become lists of records, each route handler and CRUD static method
becomes a Lean function that passes the store state explicitly, and code
that raises becomes a function into `Except`.  Time is an abstract `Nat`
instant (minutes); `datetime.utcnow()` / `datetime.now(timezone.utc)`
become an explicit `now` parameter.  Third-party library calls (passlib,
python-jose, the SQL unique constraint) are modelled by their documented
semantics at the exact points the source uses them.
-/

namespace UsersService

/-! ## app/core/constants.py -/

def TOKEN_TYPE_ACCESS : String := "access"

def TOKEN_TYPE_REFRESH : String := "refresh"

def ERROR_INVALID_CREDENTIALS : String := "Invalid email or password"

def ERROR_TOKEN_INVALID : String := "Invalid or expired token"

def ERROR_REFRESH_TOKEN_INVALID : String := "Invalid or expired refresh token"

/-! ## app/core/settings.py -/

/-- Settings loaded once at startup (app/core/settings.py).  `JWT_SECRET_KEY`
and `DATABASE_URL` come from the environment; the remaining fields carry the
defaults written in the class. -/
structure Settings where
  JWT_SECRET_KEY : String
  JWT_ALGORITHM : String
  JWT_ACCESS_TOKEN_EXPIRE_MINUTES : Nat
  JWT_REFRESH_TOKEN_EXPIRE_DAYS : Nat
deriving Repr, DecidableEq

/-- The process-wide settings object.  The secret is an arbitrary fixed
string (the process loads one value at startup and never changes it); the
numeric fields are the defaults of the Settings class. -/
def settings : Settings :=
  { JWT_SECRET_KEY := "env-secret-key"
    JWT_ALGORITHM := "HS256"
    JWT_ACCESS_TOKEN_EXPIRE_MINUTES := 30
    JWT_REFRESH_TOKEN_EXPIRE_DAYS := 7 }

/-- `timedelta(days=settings.JWT_REFRESH_TOKEN_EXPIRE_DAYS)` in minutes, the
unit of our abstract clock. -/
def REFRESH_TTL_MINUTES : Nat := settings.JWT_REFRESH_TOKEN_EXPIRE_DAYS * 24 * 60

/-! ## fastapi.HTTPException

Every error the auth routes surface is an HTTPException value (the custom
exception classes in app/exceptions all subclass it), so an error is a
status code and a detail string. -/

structure HTTPException where
  status_code : Nat
  detail : String
deriving Repr, DecidableEq

/-- app/exceptions/auth_exceptions.py: 401, "Invalid email or password". -/
def InvalidCredentialsException : HTTPException :=
  { status_code := 401, detail := ERROR_INVALID_CREDENTIALS }

/-- app/exceptions/auth_exceptions.py: 401, "Invalid or expired refresh token". -/
def InvalidRefreshTokenException : HTTPException :=
  { status_code := 401, detail := ERROR_REFRESH_TOKEN_INVALID }

/-- Modelled from the spec: `UserAlreadyExists` (duplicate email on register)
from the taxonomy in spec section 7.  The class lives in
app/exceptions/custom_exceptions.py, which is not among the repository files
given; the integration test expects status 409 for a duplicate email, and the
handler in main.py reads `.status_code` and `.detail` from it. -/
def UserAlreadyExistsException (email : String) : HTTPException :=
  { status_code := 409, detail := "User with email " ++ email ++ " already exists" }

/-! ## passlib (used by app/core/security.py)

`pwd_context = CryptContext(schemes=["sha256_crypt", "md5_crypt", "des_crypt"])`.
A digest handed to `pwd_context.verify` is either identifiable as one of the
configured schemes — then verification returns a boolean — or it is not
(the empty string and any malformed string), in which case passlib raises
`UnknownHashError` (a ValueError).  A digest of scheme `s` with salt `n`
hashing password `p` is represented as `Digest.crypt s n p`; salts make
`hash` non-deterministic, so `hash_password` takes the salt explicitly. -/

inductive Digest where
  /-- A well-formed digest under one of the configured schemes: the scheme
  name, the random salt, and the password it digests. -/
  | crypt (scheme : String) (salt : Nat) (secret : String)
  /-- A string (possibly empty) that passlib cannot identify as any
  configured scheme. -/
  | unidentifiable (raw : String)
deriving Repr, DecidableEq

inductive PasslibError where
  /-- passlib.exc.UnknownHashError: hash could not be identified. -/
  | unknownHash
deriving Repr, DecidableEq

/-- Model of `CryptContext.verify`: a boolean for an identifiable digest,
`UnknownHashError` for anything else (passlib's documented behaviour). -/
def CryptContext.verify (plain : String) (hashed : Digest) : Except PasslibError Bool :=
  match hashed with
  | .crypt _ _ secret => .ok (plain == secret)
  | .unidentifiable _ => .error .unknownHash

/-- app/core/security.py `hash_password`: `pwd_context.hash` with the default
(first-listed) scheme sha256_crypt and a fresh random salt, passed in
explicitly here. -/
def hash_password (salt : Nat) (plain_password : String) : Digest :=
  Digest.crypt "sha256_crypt" salt plain_password

/-- app/core/security.py `verify_password`: delegates to
`pwd_context.verify` unchanged — in particular it does not catch
`UnknownHashError`. -/
def verify_password (plain_password : String) (hashed_password : Digest) :
    Except PasslibError Bool :=
  CryptContext.verify plain_password hashed_password

/-! ## python-jose (used by app/core/security.py)

The service only ever mints JWTs through `jwt.encode(claims, key, alg)`
where the claims are `sub`, `email`, `exp` and `type`.  A token string is
therefore either such a signed value or garbage that no key verifies.
`jwt.decode(token, key, algorithms=[alg])` verifies the signature and — by
its defaults — the `exp` claim: an `exp` strictly before `now` raises
`ExpiredSignatureError`, a subclass of `JWTError`. -/

structure JwtClaims where
  sub : String
  email : String
  exp : Nat
  type : String
deriving Repr, DecidableEq

inductive Jwt where
  /-- A token produced by `jwt.encode(claims, key, algorithm)`. -/
  | signed (claims : JwtClaims) (key : String) (algorithm : String)
  /-- Any string that is not a well-formed signed token. -/
  | malformed (raw : String)
deriving Repr, DecidableEq

inductive JWTError where
  | invalidStructure
  | invalidSignature
  | expiredSignature
deriving Repr, DecidableEq

/-- Model of `jose.jwt.decode(token, key, algorithms=[algorithm])` at time
`now`: malformed input and signature mismatch raise, and an `exp` strictly
in the past raises `ExpiredSignatureError` (jose validates `exp` by
default, with zero leeway). -/
def jose_decode (token : Jwt) (key : String) (algorithm : String) (now : Nat) :
    Except JWTError JwtClaims :=
  match token with
  | .malformed _ => .error .invalidStructure
  | .signed claims k a =>
    if k = key ∧ a = algorithm then
      if claims.exp < now then .error .expiredSignature
      else .ok claims
    else .error .invalidSignature

/-- app/core/security.py `create_access_token` with `expires_delta=None`
(the only way the routes call it): claims plus `exp = now + access ttl` and
`type = "access"`, signed with the configured secret and algorithm. -/
def create_access_token (sub email : String) (now : Nat) : Jwt :=
  Jwt.signed
    { sub := sub, email := email
      exp := now + settings.JWT_ACCESS_TOKEN_EXPIRE_MINUTES
      type := TOKEN_TYPE_ACCESS }
    settings.JWT_SECRET_KEY settings.JWT_ALGORITHM

/-- app/core/security.py `create_refresh_token`: claims plus
`exp = now + refresh ttl` and `type = "refresh"`. -/
def create_refresh_token (sub email : String) (now : Nat) : Jwt :=
  Jwt.signed
    { sub := sub, email := email
      exp := now + REFRESH_TTL_MINUTES
      type := TOKEN_TYPE_REFRESH }
    settings.JWT_SECRET_KEY settings.JWT_ALGORITHM

/-- app/core/security.py `decode_token`: `jwt.decode` under the configured
secret and algorithm, with every `JWTError` translated to an HTTP 401 with
detail `ERROR_TOKEN_INVALID`. -/
def decode_token (token : Jwt) (now : Nat) : Except HTTPException JwtClaims :=
  match jose_decode token settings.JWT_SECRET_KEY settings.JWT_ALGORITHM now with
  | .ok payload => .ok payload
  | .error _ => .error { status_code := 401, detail := ERROR_TOKEN_INVALID }

/-! ## app/models — the persisted rows

A SQLAlchemy table becomes a list of records in insertion (rowid) order:
`query(...).filter(...).first()` is `List.find?` over that order, `db.add`
appends, and the unique constraint on `token` makes an insert of a
duplicate string raise IntegrityError. -/

/-- app/models/users.py `User`.  `password_hash` is a NOT NULL column. -/
structure User where
  id : Nat
  name : String
  email : String
  phone : Option String
  password_hash : Digest
deriving Repr, DecidableEq

/-- app/models/refresh_token.py `RefreshToken`.  In the JWT flow the stored
token strings are JWTs, so the column is modelled at type `Jwt` (garbage
strings are `Jwt.malformed`). -/
structure RefreshToken where
  id : Nat
  user_id : Nat
  token : Jwt
  expires_at : Nat
  is_revoked : Bool
  created_at : Nat
deriving Repr, DecidableEq

/-- app/models/opaque_token.py `OpaqueToken`. -/
structure OpaqueToken where
  id : Nat
  user_id : Nat
  token : String
  token_type : String
  expires_at : Nat
  is_revoked : Bool
  created_at : Nat
  last_used_at : Option Nat
deriving Repr, DecidableEq

inductive DBError where
  /-- sqlalchemy IntegrityError: the UNIQUE constraint on `token` rejected
  an insert of a token string already present. -/
  | integrityError
deriving Repr, DecidableEq

/-- A fresh primary key for an insert: one past the largest id in the
table. -/
def next_id (ids : List Nat) : Nat := ids.foldr max 0 + 1

/-! ## app/schemas -/

/-- app/schemas/auth.py `UserRegister`. -/
structure UserRegister where
  name : String
  email : String
  password : String
  phone : Option String
deriving Repr, DecidableEq

/-- app/schemas/auth.py `UserLogin`. -/
structure UserLogin where
  email : String
  password : String
deriving Repr, DecidableEq

/-- app/schemas/auth.py `TokenResponse` (JWT mode). -/
structure TokenResponse where
  access_token : Jwt
  refresh_token : Jwt
  token_type : String
deriving Repr, DecidableEq

/-- app/schemas/auth.py `OpaqueTokenResponse`. -/
structure OpaqueTokenResponse where
  access_token : String
  refresh_token : String
  token_type : String
deriving Repr, DecidableEq

/-- app/schemas/user.py `User` — the public projection returned by the
register route (`response_model=User`): id, name, email, phone, never the
password hash. -/
structure UserPublic where
  id : Nat
  name : String
  email : String
  phone : Option String
deriving Repr, DecidableEq

/-! ## app/crud/user.py -/

namespace UserCRUD

/-- `get_user(db, user_id)` with an integer id:
`db.query(User).filter(User.id == user_id).first()`. -/
def get_user (db : List User) (user_id : Nat) : Option User :=
  db.find? (fun u => u.id == user_id)

/-- `get_user(db, user_id)` as the refresh route and `get_current_user` call
it: `user_id = payload.get("sub")` is the decimal string `str(user.id)` the
login route minted, and SQLite numeric affinity makes
`filter(User.id == "7")` match the row with id 7. -/
def get_user_by_sub (db : List User) (sub : String) : Option User :=
  db.find? (fun u => toString u.id == sub)

/-- `get_user_by_email(db, email)`. -/
def get_user_by_email (db : List User) (email : String) : Option User :=
  db.find? (fun u => u.email == email)

/-- `create_user(db, user)` as written in src/app/crud/user.py: it accepts
exactly two arguments and builds `User(name=..., email=..., phone=...)`
without a `password_hash`.  The column is NOT NULL, so the commit raises
IntegrityError; no row is persisted. -/
def create_user (_db : List User) (_user : UserRegister) :
    Except DBError (List User × User) :=
  .error .integrityError

end UserCRUD

/-! ## app/crud/auth.py — RefreshTokenCRUD -/

namespace RefreshTokenCRUD

/-- `create_refresh_token(db, user_id, token)`: inserts a row expiring
`JWT_REFRESH_TOKEN_EXPIRE_DAYS` from now.  The UNIQUE constraint on `token`
makes the commit raise IntegrityError when the string is already stored. -/
def create_refresh_token (db : List RefreshToken) (user_id : Nat) (token : Jwt)
    (now : Nat) : Except DBError (List RefreshToken × RefreshToken) :=
  if db.any (fun r => r.token == token) then .error .integrityError
  else
    let row : RefreshToken :=
      { id := next_id (db.map (·.id)), user_id := user_id, token := token
        expires_at := now + REFRESH_TTL_MINUTES, is_revoked := false
        created_at := now }
    .ok (db ++ [row], row)

/-- `get_refresh_token(db, token)`: first row with that token string and
`is_revoked == False`; a pure query. -/
def get_refresh_token (db : List RefreshToken) (token : Jwt) : Option RefreshToken :=
  db.find? (fun r => r.token == token && r.is_revoked == false)

/-- `revoke_refresh_token(db, token)`: `.filter(token == token).first()` —
the revoked flag is not part of the filter — and if a row was found its
`is_revoked` is set and True returned. -/
def revoke_refresh_token (db : List RefreshToken) (token : Jwt) :
    List RefreshToken × Bool :=
  match db with
  | [] => ([], false)
  | r :: rest =>
    if r.token == token then ({ r with is_revoked := true } :: rest, true)
    else
      let p := revoke_refresh_token rest token
      (r :: p.1, p.2)

/-- `revoke_all_user_tokens(db, user_id)`: bulk-update of every non-revoked
row of the user. -/
def revoke_all_user_tokens (db : List RefreshToken) (user_id : Nat) :
    List RefreshToken × Nat :=
  (db.map (fun r =>
      if r.user_id == user_id && r.is_revoked == false
      then { r with is_revoked := true } else r),
   (db.filter (fun r => r.user_id == user_id && r.is_revoked == false)).length)

/-- `cleanup_expired_tokens(db)`: deletes rows with `expires_at` in the
past. -/
def cleanup_expired_tokens (db : List RefreshToken) (now : Nat) :
    List RefreshToken × Nat :=
  (db.filter (fun r => !(r.expires_at < now)),
   (db.filter (fun r => r.expires_at < now)).length)

end RefreshTokenCRUD

/-! ## app/crud/opaque_token.py — OpaqueTokenCRUD -/

namespace OpaqueTokenCRUD

/-- The row filter of `get_opaque_token`: exact token string, not revoked,
and — when a type is requested (`if token_type:`) — that `token_type`. -/
def row_matches (r : OpaqueToken) (token : String) (token_type : Option String) : Bool :=
  r.token == token && r.is_revoked == false &&
    (match token_type with
     | some tt => r.token_type == tt
     | none => true)

/-- Setting `db_token.last_used_at = now` on the ORM object and committing:
the row with that primary key is updated in place. -/
def stamp_last_used (db : List OpaqueToken) (id : Nat) (now : Nat) :
    List OpaqueToken :=
  db.map (fun r => if r.id == id then { r with last_used_at := some now } else r)

/-- `create_opaque_token(db, user_id, token_type, expires_delta=None)` with
the freshly generated random `token` passed in explicitly
(`generate_token()` draws 32 random url-safe bytes).  The default ttl is the
access ttl for type "access", the refresh ttl otherwise; the UNIQUE
constraint rejects a duplicate token string. -/
def create_opaque_token (db : List OpaqueToken) (user_id : Nat)
    (token_type : String) (token : String) (now : Nat) :
    Except DBError (List OpaqueToken × OpaqueToken) :=
  let ttl :=
    if token_type == TOKEN_TYPE_ACCESS then settings.JWT_ACCESS_TOKEN_EXPIRE_MINUTES
    else REFRESH_TTL_MINUTES
  if db.any (fun r => r.token == token) then .error .integrityError
  else
    let row : OpaqueToken :=
      { id := next_id (db.map (·.id)), user_id := user_id, token := token
        token_type := token_type, expires_at := now + ttl, is_revoked := false
        created_at := now, last_used_at := none }
    .ok (db ++ [row], row)

/-- `get_opaque_token(db, token, token_type)`: first non-revoked row with
the token string (and the type, when given); None when that row is past
`expires_at`; otherwise `last_used_at` is stamped and the row returned.
Returns the store as left by the call together with the result. -/
def get_opaque_token (db : List OpaqueToken) (token : String)
    (token_type : Option String) (now : Nat) :
    List OpaqueToken × Option OpaqueToken :=
  match db.find? (fun r => row_matches r token token_type) with
  | none => (db, none)
  | some db_token =>
    if db_token.expires_at < now then (db, none)
    else (stamp_last_used db db_token.id now,
          some { db_token with last_used_at := some now })

/-- `validate_opaque_token`: an alias of `get_opaque_token`. -/
def validate_opaque_token (db : List OpaqueToken) (token : String)
    (token_type : Option String) (now : Nat) :
    List OpaqueToken × Option OpaqueToken :=
  get_opaque_token db token token_type now

/-- `revoke_opaque_token(db, token)`: `.filter(token == token).first()`
regardless of revocation state; if found, `is_revoked` is set and True
returned. -/
def revoke_opaque_token (db : List OpaqueToken) (token : String) :
    List OpaqueToken × Bool :=
  match db with
  | [] => ([], false)
  | r :: rest =>
    if r.token == token then ({ r with is_revoked := true } :: rest, true)
    else
      let p := revoke_opaque_token rest token
      (r :: p.1, p.2)

/-- `revoke_all_user_tokens(db, user_id, token_type)`. -/
def revoke_all_user_tokens (db : List OpaqueToken) (user_id : Nat)
    (token_type : Option String) : List OpaqueToken × Nat :=
  let hit := fun (r : OpaqueToken) =>
    r.user_id == user_id && r.is_revoked == false &&
      (match token_type with
       | some tt => r.token_type == tt
       | none => true)
  (db.map (fun r => if hit r then { r with is_revoked := true } else r),
   (db.filter hit).length)

/-- `cleanup_expired_tokens(db)`. -/
def cleanup_expired_tokens (db : List OpaqueToken) (now : Nat) :
    List OpaqueToken × Nat :=
  (db.filter (fun r => !(r.expires_at < now)),
   (db.filter (fun r => r.expires_at < now)).length)

end OpaqueTokenCRUD

/-! ## app/core/security.py — the auth dependencies -/

/-- `get_current_user` (JWT mode): decode the bearer token, require
`type == "access"`, then re-fetch the user by the embedded sub; every
failure is a 401 with `ERROR_TOKEN_INVALID`.  It performs no store
write, so it is a pure function of its inputs. -/
def get_current_user (db_users : List User) (token : Jwt) (now : Nat) :
    Except HTTPException User :=
  match decode_token token now with
  | .error e => .error e
  | .ok payload =>
    if payload.type ≠ TOKEN_TYPE_ACCESS then
      .error { status_code := 401, detail := ERROR_TOKEN_INVALID }
    else
      match UserCRUD.get_user_by_sub db_users payload.sub with
      | none => .error { status_code := 401, detail := ERROR_TOKEN_INVALID }
      | some user => .ok user

/-- `get_current_user_opaque` from app/core/security.py: validate the
bearer string as an opaque token **with `token_type="access"`**, then
re-fetch the user; every failure is a 401 with `ERROR_TOKEN_INVALID`.
Returns the opaque store as the call leaves it (validation stamps
`last_used_at`). -/
def getCurrentUserOpaque (db_users : List User) (db_ot : List OpaqueToken)
    (token : String) (now : Nat) :
    List OpaqueToken × Except HTTPException User :=
  let p := OpaqueTokenCRUD.validate_opaque_token db_ot token (some TOKEN_TYPE_ACCESS) now
  match p.2 with
  | none => (p.1, .error { status_code := 401, detail := ERROR_TOKEN_INVALID })
  | some db_token =>
    match UserCRUD.get_user db_users db_token.user_id with
    | none => (p.1, .error { status_code := 401, detail := ERROR_TOKEN_INVALID })
    | some user => (p.1, .ok user)

/-! ## app/routes/auth.py — the route handlers -/

/-- The `register` route as the source runs: if the email is taken it
raises UserAlreadyExists; otherwise it hashes the password and then calls
`UserCRUD.create_user(db, user_create, password_hash)` — but `create_user`
in src/app/crud/user.py accepts only `(db, user)`, so the call raises
TypeError, which the generic handler turns into a 500 response; no user row
is created (and `create_user` itself could not store the hash: see
`UserCRUD.create_user`). -/
def register (db_users : List User) (user_data : UserRegister) :
    List User × Except HTTPException UserPublic :=
  match UserCRUD.get_user_by_email db_users user_data.email with
  | some _ => (db_users, .error (UserAlreadyExistsException user_data.email))
  | none =>
    (db_users, .error
      { status_code := 500
        detail := "Registration failed: UserCRUD.create_user() takes 2 positional arguments but 3 were given" })

/-- The `login` route (JWT mode).  A missing user and a wrong password both
raise `InvalidCredentialsException`; a digest passlib cannot identify makes
`verify_password` raise, which the generic handler turns into a 500.  On
success the refresh JWT is persisted and the pair returned. -/
def login (db_users : List User) (db_rt : List RefreshToken)
    (credentials : UserLogin) (now : Nat) :
    List RefreshToken × Except HTTPException TokenResponse :=
  match UserCRUD.get_user_by_email db_users credentials.email with
  | none => (db_rt, .error InvalidCredentialsException)
  | some user =>
    match verify_password credentials.password user.password_hash with
    | .error _ =>
      (db_rt, .error { status_code := 500, detail := "Login failed: hash could not be identified" })
    | .ok false => (db_rt, .error InvalidCredentialsException)
    | .ok true =>
      let access_tok := create_access_token (toString user.id) user.email now
      let refresh_tok := create_refresh_token (toString user.id) user.email now
      match RefreshTokenCRUD.create_refresh_token db_rt user.id refresh_tok now with
      | .error _ =>
        (db_rt, .error { status_code := 500, detail := "Login failed: IntegrityError" })
      | .ok (db2, _) =>
        (db2, .ok { access_token := access_tok, refresh_token := refresh_tok
                    token_type := "bearer" })

/-- The `refresh_token` route (JWT mode): decode (any HTTPException from
`decode_token` becomes InvalidRefreshToken), require type "refresh", find
the non-revoked row, revoke-and-fail if it is past its stored expiry,
re-fetch the user by sub, then revoke the old row and persist the new
refresh JWT. -/
def refresh_token (db_users : List User) (db_rt : List RefreshToken)
    (token : Jwt) (now : Nat) :
    List RefreshToken × Except HTTPException TokenResponse :=
  match decode_token token now with
  | .error _ => (db_rt, .error InvalidRefreshTokenException)
  | .ok payload =>
    if payload.type ≠ TOKEN_TYPE_REFRESH then
      (db_rt, .error InvalidRefreshTokenException)
    else
      match RefreshTokenCRUD.get_refresh_token db_rt token with
      | none => (db_rt, .error InvalidRefreshTokenException)
      | some db_refresh_token =>
        if db_refresh_token.expires_at < now then
          ((RefreshTokenCRUD.revoke_refresh_token db_rt token).1,
           .error InvalidRefreshTokenException)
        else
          match UserCRUD.get_user_by_sub db_users payload.sub with
          | none => (db_rt, .error InvalidRefreshTokenException)
          | some user =>
            let new_access := create_access_token (toString user.id) user.email now
            let new_refresh := create_refresh_token (toString user.id) user.email now
            let db1 := (RefreshTokenCRUD.revoke_refresh_token db_rt token).1
            match RefreshTokenCRUD.create_refresh_token db1 user.id new_refresh now with
            | .error _ =>
              (db1, .error { status_code := 500, detail := "Token refresh failed: IntegrityError" })
            | .ok (db2, _) =>
              (db2, .ok { access_token := new_access, refresh_token := new_refresh
                          token_type := "bearer" })

/-- The `logout` route: revoke whatever row matches and return 204 either
way. -/
def logout (db_rt : List RefreshToken) (token : Jwt) :
    List RefreshToken × Except HTTPException Unit :=
  ((RefreshTokenCRUD.revoke_refresh_token db_rt token).1, .ok ())

/-- The `login-opaque` route (`login_opaque` in the source): same
credential checks as `login`, then two opaque tokens are created and
committed one after the other. -/
def loginOpaque (db_users : List User) (db_ot : List OpaqueToken)
    (credentials : UserLogin) (now : Nat) (freshA freshR : String) :
    List OpaqueToken × Except HTTPException OpaqueTokenResponse :=
  match UserCRUD.get_user_by_email db_users credentials.email with
  | none => (db_ot, .error InvalidCredentialsException)
  | some user =>
    match verify_password credentials.password user.password_hash with
    | .error _ =>
      (db_ot, .error { status_code := 500, detail := "Opaque login failed: hash could not be identified" })
    | .ok false => (db_ot, .error InvalidCredentialsException)
    | .ok true =>
      match OpaqueTokenCRUD.create_opaque_token db_ot user.id "access" freshA now with
      | .error _ =>
        (db_ot, .error { status_code := 500, detail := "Opaque login failed: IntegrityError" })
      | .ok (db1, access_obj) =>
        match OpaqueTokenCRUD.create_opaque_token db1 user.id "refresh" freshR now with
        | .error _ =>
          (db1, .error { status_code := 500, detail := "Opaque login failed: IntegrityError" })
        | .ok (db2, refresh_obj) =>
          (db2, .ok { access_token := access_obj.token, refresh_token := refresh_obj.token
                      token_type := "bearer" })

/-- The payload the `validate-opaque` route returns on success: valid flag,
user id, email, token type and expiry. -/
structure ValidateOpaqueResponse where
  valid : Bool
  user_id : Nat
  email : String
  token_type : String
  expires_at : Nat
deriving Repr, DecidableEq

/-- The `validate-opaque` route (`validate_opaque_token` in the source):
`OpaqueTokenCRUD.validate_opaque_token(db, token)` — note: **no**
`token_type` argument, so tokens of either type pass — then the user
lookup, then the descriptive payload. -/
def validate_opaque_token (db_users : List User) (db_ot : List OpaqueToken)
    (token : String) (now : Nat) :
    List OpaqueToken × Except HTTPException ValidateOpaqueResponse :=
  let p := OpaqueTokenCRUD.validate_opaque_token db_ot token none now
  match p.2 with
  | none => (p.1, .error { status_code := 401, detail := "Invalid or expired opaque token" })
  | some db_token =>
    match UserCRUD.get_user db_users db_token.user_id with
    | none => (p.1, .error { status_code := 401, detail := "User not found" })
    | some user =>
      (p.1, .ok { valid := true, user_id := user.id, email := user.email
                  token_type := db_token.token_type, expires_at := db_token.expires_at })

/-- The `refresh-opaque` route (`refresh_opaque_token` in the source):
validate the presented string as a refresh-typed opaque token, re-fetch the
user, revoke the old row, then create and commit a fresh access and a fresh
refresh token. -/
def refreshOpaqueToken (db_users : List User) (db_ot : List OpaqueToken)
    (token : String) (now : Nat) (freshA freshR : String) :
    List OpaqueToken × Except HTTPException OpaqueTokenResponse :=
  let p := OpaqueTokenCRUD.validate_opaque_token db_ot token (some "refresh") now
  match p.2 with
  | none => (p.1, .error InvalidRefreshTokenException)
  | some db_refresh_token =>
    match UserCRUD.get_user db_users db_refresh_token.user_id with
    | none => (p.1, .error InvalidRefreshTokenException)
    | some user =>
      let db1 := (OpaqueTokenCRUD.revoke_opaque_token p.1 db_refresh_token.token).1
      match OpaqueTokenCRUD.create_opaque_token db1 user.id "access" freshA now with
      | .error _ =>
        (db1, .error { status_code := 500, detail := "Token refresh failed: IntegrityError" })
      | .ok (db2, access_obj) =>
        match OpaqueTokenCRUD.create_opaque_token db2 user.id "refresh" freshR now with
        | .error _ =>
          (db2, .error { status_code := 500, detail := "Token refresh failed: IntegrityError" })
        | .ok (db3, refresh_obj) =>
          (db3, .ok { access_token := access_obj.token, refresh_token := refresh_obj.token
                      token_type := "bearer" })

/-- The `logout-opaque` route (`logout_opaque` in the source): revoke and
return 204 either way. -/
def logoutOpaque (db_ot : List OpaqueToken) (token : String) :
    List OpaqueToken × Except HTTPException Unit :=
  ((OpaqueTokenCRUD.revoke_opaque_token db_ot token).1, .ok ())

/-! ## Store-level operation alphabets

Everything the repository ever does to a token table is one of the CRUD
static methods above; these small alphabets let invariants be stated over
arbitrary interleavings of them.  A `create` carries the token string the
caller passes (for opaque tokens, the output of `generate_token()`). -/

inductive RefreshStoreOp where
  | create (user_id : Nat) (token : Jwt) (now : Nat)
  | revoke (token : Jwt)
  | revokeAll (user_id : Nat)
  | cleanup (now : Nat)
deriving Repr, DecidableEq

/-- The effect of one RefreshTokenCRUD call on the table (a failed insert
rolls back and leaves the table as it was). -/
def RefreshStoreOp.apply (op : RefreshStoreOp) (db : List RefreshToken) :
    List RefreshToken :=
  match op with
  | .create uid tok now =>
    match RefreshTokenCRUD.create_refresh_token db uid tok now with
    | .ok (db2, _) => db2
    | .error _ => db
  | .revoke tok => (RefreshTokenCRUD.revoke_refresh_token db tok).1
  | .revokeAll uid => (RefreshTokenCRUD.revoke_all_user_tokens db uid).1
  | .cleanup now => (RefreshTokenCRUD.cleanup_expired_tokens db now).1

/-- Whether the operation inserts a row with the given token string. -/
def RefreshStoreOp.creates (op : RefreshStoreOp) (t : Jwt) : Bool :=
  match op with
  | .create _ tok _ => tok == t
  | _ => false

inductive OpaqueStoreOp where
  | create (user_id : Nat) (token_type token : String) (now : Nat)
  | validate (token : String) (token_type : Option String) (now : Nat)
  | revoke (token : String)
  | revokeAll (user_id : Nat) (token_type : Option String)
  | cleanup (now : Nat)
deriving Repr, DecidableEq

/-- The effect of one OpaqueTokenCRUD call on the table. -/
def OpaqueStoreOp.apply (op : OpaqueStoreOp) (db : List OpaqueToken) :
    List OpaqueToken :=
  match op with
  | .create uid tt tok now =>
    match OpaqueTokenCRUD.create_opaque_token db uid tt tok now with
    | .ok (db2, _) => db2
    | .error _ => db
  | .validate tok tt now => (OpaqueTokenCRUD.get_opaque_token db tok tt now).1
  | .revoke tok => (OpaqueTokenCRUD.revoke_opaque_token db tok).1
  | .revokeAll uid tt => (OpaqueTokenCRUD.revoke_all_user_tokens db uid tt).1
  | .cleanup now => (OpaqueTokenCRUD.cleanup_expired_tokens db now).1

/-- Whether the operation inserts a row with the given token string. -/
def OpaqueStoreOp.creates (op : OpaqueStoreOp) (t : String) : Bool :=
  match op with
  | .create _ _ tok _ => tok == t
  | _ => false

/-! ## Concrete fixtures

Small stores used by the counterexamples and the witnesses. -/

/-- A stored user with a well-formed sha256_crypt digest of "pw1234". -/
def wUser : User :=
  { id := 1, name := "A", email := "a@x.com", phone := none
    password_hash := Digest.crypt "sha256_crypt" 0 "pw1234" }

/-- The refresh JWT the service mints for `wUser` at time 0. -/
def wTok : Jwt := create_refresh_token "1" "a@x.com" 0

/-- A live stored refresh-token row for `wTok`. -/
def wRow : RefreshToken :=
  { id := 1, user_id := 1, token := wTok, expires_at := 50, is_revoked := false
    created_at := 0 }

/-- The same row but already past its stored expiry at time 10. -/
def wExpiredRow : RefreshToken :=
  { id := 1, user_id := 1, token := wTok, expires_at := 5, is_revoked := false
    created_at := 0 }

/-- A live refresh-typed opaque token of `wUser`. -/
def wOpaqueRefresh : OpaqueToken :=
  { id := 1, user_id := 1, token := "r1", token_type := "refresh"
    expires_at := 100, is_revoked := false, created_at := 0, last_used_at := none }

/-- A live access-typed opaque token of `wUser`, issued alongside
`wOpaqueRefresh`. -/
def wOpaqueAccess : OpaqueToken :=
  { id := 2, user_id := 1, token := "acc1", token_type := "access"
    expires_at := 40, is_revoked := false, created_at := 0, last_used_at := none }

/-- An already-revoked opaque token row. -/
def wRevokedRow : OpaqueToken :=
  { id := 3, user_id := 1, token := "dead", token_type := "access"
    expires_at := 1000, is_revoked := true, created_at := 0, last_used_at := none }

/-! # Shared lemmas -/

/-- A boolean search finds the one element satisfying the predicate when
that element is a member and nothing else satisfies it. -/
theorem find?_eq_some_of_unique {α : Type} (p : α → Bool) (l : List α) (r : α)
    (hmem : r ∈ l) (hp : p r = true) (huniq : ∀ x ∈ l, p x = true → x = r) :
    l.find? p = some r := by
  induction l with
  | nil => cases hmem
  | cons a rest ih =>
    by_cases ha : p a = true
    · have har : a = r := huniq a (List.mem_cons_self a rest) ha
      rw [List.find?_cons_of_pos _ ha, har]
    · have ha' : ¬ p a = true := ha
      have hr : r ∈ rest := by
        rcases List.mem_cons.mp hmem with h | h
        · exact absurd (h ▸ hp) ha'
        · exact h
      rw [List.find?_cons_of_neg _ ha']
      exact ih hr (fun x hx hpx => huniq x (List.mem_cons_of_mem a hx) hpx)

/-- Two members of a list whose images under `f` are without repetition and
agree at `f` are the same element. -/
theorem eq_of_nodup_map {α β : Type} [DecidableEq β] (f : α → β) (l : List α)
    (hnd : (l.map f).Nodup) (x : α) (hx : x ∈ l) (y : α) (hy : y ∈ l)
    (hf : f x = f y) : x = y := by
  induction l with
  | nil => cases hx
  | cons a rest ih =>
    have hnd' : (rest.map f).Nodup := (List.nodup_cons.mp hnd).2
    have hna : f a ∉ rest.map f := (List.nodup_cons.mp hnd).1
    rcases List.mem_cons.mp hx with hxa | hxr
    · rcases List.mem_cons.mp hy with hya | hyr
      · rw [hxa, hya]
      · exact absurd (hxa ▸ hf ▸ List.mem_map_of_mem f hyr) hna
    · rcases List.mem_cons.mp hy with hya | hyr
      · exact absurd (hya ▸ hf ▸ List.mem_map_of_mem f hxr) hna
      · exact ih hnd' hxr hyr

/-- Revoking keeps the table's token column unchanged (opaque store). -/
theorem revoke_opaque_tokens (db : List OpaqueToken) (t : String) :
    ((OpaqueTokenCRUD.revoke_opaque_token db t).1).map (·.token) =
      db.map (·.token) := by
  induction db with
  | nil => rfl
  | cons r rest ih =>
    by_cases h : r.token == t
    · simp [OpaqueTokenCRUD.revoke_opaque_token, h]
    · simp [OpaqueTokenCRUD.revoke_opaque_token, h, ih]

/-- Revoking keeps the table's token column unchanged (refresh store). -/
theorem revoke_refresh_tokens (db : List RefreshToken) (t : Jwt) :
    ((RefreshTokenCRUD.revoke_refresh_token db t).1).map (·.token) =
      db.map (·.token) := by
  induction db with
  | nil => rfl
  | cons r rest ih =>
    by_cases h : r.token == t
    · simp [RefreshTokenCRUD.revoke_refresh_token, h]
    · simp [RefreshTokenCRUD.revoke_refresh_token, h, ih]

/-- Revoke reports whether any row carries the token string (opaque store). -/
theorem revoke_opaque_found (db : List OpaqueToken) (t : String) :
    (OpaqueTokenCRUD.revoke_opaque_token db t).2 =
      db.any (fun r => r.token == t) := by
  induction db with
  | nil => rfl
  | cons r rest ih =>
    by_cases h : r.token == t
    · simp [OpaqueTokenCRUD.revoke_opaque_token, h]
    · simp [OpaqueTokenCRUD.revoke_opaque_token, h, ih]

/-- Revoke reports whether any row carries the token string (refresh store). -/
theorem revoke_refresh_found (db : List RefreshToken) (t : Jwt) :
    (RefreshTokenCRUD.revoke_refresh_token db t).2 =
      db.any (fun r => r.token == t) := by
  induction db with
  | nil => rfl
  | cons r rest ih =>
    by_cases h : r.token == t
    · simp [RefreshTokenCRUD.revoke_refresh_token, h]
    · simp [RefreshTokenCRUD.revoke_refresh_token, h, ih]

/-- Stamping `last_used_at` changes no other column of any row. -/
theorem stamp_frame (db : List OpaqueToken) (id now : Nat) :
    (OpaqueTokenCRUD.stamp_last_used db id now).map
        (fun r => (r.id, r.user_id, r.token, r.token_type, r.expires_at, r.is_revoked)) =
      db.map (fun r => (r.id, r.user_id, r.token, r.token_type, r.expires_at, r.is_revoked)) := by
  unfold OpaqueTokenCRUD.stamp_last_used
  rw [List.map_map]
  apply List.map_congr_left
  intro r _
  by_cases h : r.id = id <;> simp [h]

/-- When every row carrying the token string is revoked, the non-revoked
lookup of the refresh store finds nothing. -/
theorem get_refresh_none (db : List RefreshToken) (t : Jwt)
    (h : ∀ r ∈ db, r.token = t → r.is_revoked = true) :
    RefreshTokenCRUD.get_refresh_token db t = none := by
  unfold RefreshTokenCRUD.get_refresh_token
  rw [List.find?_eq_none]
  intro r hr
  simp only [Bool.and_eq_true, beq_iff_eq]
  rintro ⟨ht, hrev⟩
  rw [h r hr ht] at hrev
  cases hrev

/-- When every row carrying the token string is revoked, the opaque-store
lookup returns None whatever type filter and clock it is given. -/
theorem get_opaque_none (db : List OpaqueToken) (t : String)
    (token_type : Option String) (now : Nat)
    (h : ∀ r ∈ db, r.token = t → r.is_revoked = true) :
    (OpaqueTokenCRUD.get_opaque_token db t token_type now).2 = none := by
  unfold OpaqueTokenCRUD.get_opaque_token
  have hfind : db.find? (fun r => OpaqueTokenCRUD.row_matches r t token_type) = none := by
    rw [List.find?_eq_none]
    intro r hr
    unfold OpaqueTokenCRUD.row_matches
    simp only [Bool.and_eq_true, beq_iff_eq]
    rintro ⟨⟨ht, hrev⟩, -⟩
    rw [h r hr ht] at hrev
    cases hrev
  rw [hfind]

/-- Under the unique-token constraint, after `revoke_opaque_token db t`
every row carrying token `t` is revoked. -/
theorem revoke_opaque_all_revoked (db : List OpaqueToken) (t : String)
    (hnd : (db.map (·.token)).Nodup) :
    ∀ r ∈ (OpaqueTokenCRUD.revoke_opaque_token db t).1, r.token = t →
      r.is_revoked = true := by
  induction db with
  | nil => intro r hr; cases hr
  | cons a rest ih =>
    have hnd' : (rest.map (·.token)).Nodup := (List.nodup_cons.mp hnd).2
    have hna : a.token ∉ rest.map (·.token) := (List.nodup_cons.mp hnd).1
    by_cases h : a.token == t
    · intro r hr ht
      simp only [OpaqueTokenCRUD.revoke_opaque_token, h, if_pos] at hr
      rcases List.mem_cons.mp hr with hra | hrr
      · rw [hra]
      · exfalso
        apply hna
        have : a.token = t := by simpa using h
        rw [this, ← ht]
        exact List.mem_map_of_mem _ hrr
    · intro r hr ht
      simp only [OpaqueTokenCRUD.revoke_opaque_token, h] at hr
      simp only [Bool.false_eq_true, if_false] at hr
      rcases List.mem_cons.mp hr with hra | hrr
      · exfalso
        apply h
        rw [hra] at ht
        simpa using ht
      · exact ih hnd' r hrr ht

/-- Under the unique-token constraint, after `revoke_refresh_token db t`
every row carrying token `t` is revoked. -/
theorem revoke_refresh_all_revoked (db : List RefreshToken) (t : Jwt)
    (hnd : (db.map (·.token)).Nodup) :
    ∀ r ∈ (RefreshTokenCRUD.revoke_refresh_token db t).1, r.token = t →
      r.is_revoked = true := by
  induction db with
  | nil => intro r hr; cases hr
  | cons a rest ih =>
    have hnd' : (rest.map (·.token)).Nodup := (List.nodup_cons.mp hnd).2
    have hna : a.token ∉ rest.map (·.token) := (List.nodup_cons.mp hnd).1
    by_cases h : a.token == t
    · intro r hr ht
      simp only [RefreshTokenCRUD.revoke_refresh_token, h, if_pos] at hr
      rcases List.mem_cons.mp hr with hra | hrr
      · rw [hra]
      · exfalso
        apply hna
        have : a.token = t := by simpa using h
        rw [this, ← ht]
        exact List.mem_map_of_mem _ hrr
    · intro r hr ht
      simp only [RefreshTokenCRUD.revoke_refresh_token, h] at hr
      simp only [Bool.false_eq_true, if_false] at hr
      rcases List.mem_cons.mp hr with hra | hrr
      · exfalso
        apply h
        rw [hra] at ht
        simpa using ht
      · exact ih hnd' r hrr ht

/-! # Claims -/

/-- C1 (code bug): registration with a fresh e-mail does NOT create a user
whose `password_hash` is the digest — the route's call
`UserCRUD.create_user(db, user_create, password_hash)` passes three
arguments to the two-argument `create_user` of src/app/crud/user.py, so the
route answers 500 and leaves the user store unchanged; only the
duplicate-email branch behaves as claimed (UserAlreadyExists).  The third
conjunct records that `create_user` itself cannot store a digest either
(`password_hash` is a NOT NULL column it never fills). -/
theorem register_never_stores_password_hash :
    register []
        { name := "New User", email := "newuser@example.com"
          password := "securepassword123", phone := some "+1234567890" } =
      ([], .error
        { status_code := 500
          detail := "Registration failed: UserCRUD.create_user() takes 2 positional arguments but 3 were given" }) ∧
    (register [wUser]
        { name := "B", email := "a@x.com", password := "pw", phone := none }).2 =
      .error (UserAlreadyExistsException "a@x.com") ∧
    UserCRUD.create_user []
        { name := "New User", email := "newuser@example.com"
          password := "securepassword123", phone := some "+1234567890" } =
      .error DBError.integrityError := by
  exact ⟨rfl, rfl, rfl⟩

/-- C5 (counterexample): `verify_password` on the empty digest raises
passlib's UnknownHashError instead of returning false — the claim that it
returns a boolean and never raises is false at this input. -/
theorem verify_password_raises_on_empty_digest :
    verify_password "password123" (Digest.unidentifiable "") =
      .error PasslibError.unknownHash := rfl

/-- C5 (amended): `verify_password` returns a boolean — true exactly when
the password matches — for every digest identifiable by the configured
schemes, but for an empty or malformed digest it raises UnknownHashError
(surfaced by the calling routes as a 500) rather than returning false. -/
theorem verify_password_amended :
    (∀ plain scheme salt secret,
        verify_password plain (Digest.crypt scheme salt secret) = .ok (plain == secret)) ∧
    (∀ plain raw,
        verify_password plain (Digest.unidentifiable raw) =
          .error PasslibError.unknownHash) :=
  ⟨fun _ _ _ _ => rfl, fun _ _ => rfl⟩

/-- C7: `decode_token` fails — always with the 401 TokenInvalid value —
exactly when the token is structurally malformed, its signature does not
verify under the configured secret and algorithm, or its embedded `exp` is
in the past; in particular a correctly signed but expired token is rejected
by decode itself. -/
theorem decode_token_fails_iff :
    ∀ (token : Jwt) (now : Nat),
      decode_token token now =
          .error { status_code := 401, detail := ERROR_TOKEN_INVALID } ↔
        ((∃ raw, token = Jwt.malformed raw) ∨
         (∃ c k a, token = Jwt.signed c k a ∧
            ¬(k = settings.JWT_SECRET_KEY ∧ a = settings.JWT_ALGORITHM)) ∨
         (∃ c, token = Jwt.signed c settings.JWT_SECRET_KEY settings.JWT_ALGORITHM ∧
            c.exp < now)) := by
  intro token now
  cases token with
  | malformed raw => simp [decode_token, jose_decode]
  | signed c k a =>
    by_cases hk : k = settings.JWT_SECRET_KEY ∧ a = settings.JWT_ALGORITHM
    · obtain ⟨hk1, hk2⟩ := hk
      subst hk1
      subst hk2
      by_cases he : c.exp < now
      · simp [decode_token, jose_decode, he]
      · simp [decode_token, jose_decode, he]
    · constructor
      · intro _
        exact Or.inr (Or.inl ⟨c, k, a, rfl, hk⟩)
      · intro _
        simp [decode_token, jose_decode, hk]

/-- C9: for both stores, `revoke` answers whether a row with the token
string exists — regardless of its revocation state — so revoking twice
answers the same both times (true whenever the row exists, false when
absent). -/
theorem revoke_true_iff_row_exists :
    ∀ (dbo : List OpaqueToken) (t : String) (dbr : List RefreshToken) (tj : Jwt),
      ((OpaqueTokenCRUD.revoke_opaque_token dbo t).2 = true ↔ ∃ r ∈ dbo, r.token = t) ∧
      (OpaqueTokenCRUD.revoke_opaque_token
          (OpaqueTokenCRUD.revoke_opaque_token dbo t).1 t).2 =
        (OpaqueTokenCRUD.revoke_opaque_token dbo t).2 ∧
      ((RefreshTokenCRUD.revoke_refresh_token dbr tj).2 = true ↔ ∃ r ∈ dbr, r.token = tj) ∧
      (RefreshTokenCRUD.revoke_refresh_token
          (RefreshTokenCRUD.revoke_refresh_token dbr tj).1 tj).2 =
        (RefreshTokenCRUD.revoke_refresh_token dbr tj).2 := by
  intro dbo t dbr tj
  have eo : ∀ (l : List OpaqueToken),
      l.any (fun r => r.token == t) = (l.map (·.token)).any (fun s => s == t) := by
    intro l
    induction l with
    | nil => rfl
    | cons a rest ih => simp [ih]
  have er : ∀ (l : List RefreshToken),
      l.any (fun r => r.token == tj) = (l.map (·.token)).any (fun s => s == tj) := by
    intro l
    induction l with
    | nil => rfl
    | cons a rest ih => simp [ih]
  refine ⟨?_, ?_, ?_, ?_⟩
  · rw [revoke_opaque_found]
    simp [List.any_eq_true]
  · rw [revoke_opaque_found, revoke_opaque_found, eo, eo, revoke_opaque_tokens]
  · rw [revoke_refresh_found]
    simp [List.any_eq_true]
  · rw [revoke_refresh_found, revoke_refresh_found, er, er, revoke_refresh_tokens]

/-- C6: in both the JWT-mode and the opaque-mode login flow, an unknown
e-mail and a known e-mail with a non-matching password produce the very
same error value — same kind, status 401 and detail — so the caller cannot
tell which check failed. -/
theorem login_failures_indistinguishable :
    ∀ (db_users : List User) (db_rt : List RefreshToken) (db_ot : List OpaqueToken)
      (creds : UserLogin) (now : Nat) (freshA freshR : String),
      (UserCRUD.get_user_by_email db_users creds.email = none →
        (login db_users db_rt creds now).2 = .error InvalidCredentialsException ∧
        (loginOpaque db_users db_ot creds now freshA freshR).2 =
          .error InvalidCredentialsException) ∧
      (∀ user, UserCRUD.get_user_by_email db_users creds.email = some user →
        verify_password creds.password user.password_hash = .ok false →
        (login db_users db_rt creds now).2 = .error InvalidCredentialsException ∧
        (loginOpaque db_users db_ot creds now freshA freshR).2 =
          .error InvalidCredentialsException) := by
  intro dbu dbrt dbot creds now fa fr
  constructor
  · intro h
    constructor
    · simp [login, h]
    · simp [loginOpaque, h]
  · intro user hu hv
    constructor
    · simp [login, hu, hv]
    · simp [loginOpaque, hu, hv]

/-- C6 witness: the two failure modes really occur and coincide — an empty
user store (unknown e-mail) and the stored user `wUser` with a wrong
password both yield InvalidCredentials in both flows. -/
theorem login_failures_indistinguishable_witness :
    ((login [] [] { email := "nobody@x.com", password := "pw" } 0).2 =
        .error InvalidCredentialsException ∧
      (loginOpaque [] [] { email := "nobody@x.com", password := "pw" } 0 "fa" "fr").2 =
        .error InvalidCredentialsException) ∧
    ((login [wUser] [] { email := "a@x.com", password := "wrong" } 0).2 =
        .error InvalidCredentialsException ∧
      (loginOpaque [wUser] [] { email := "a@x.com", password := "wrong" } 0 "fa" "fr").2 =
        .error InvalidCredentialsException) :=
  ⟨(login_failures_indistinguishable [] [] []
      { email := "nobody@x.com", password := "pw" } 0 "fa" "fr").1 rfl,
   (login_failures_indistinguishable [wUser] [] []
      { email := "a@x.com", password := "wrong" } 0 "fa" "fr").2 wUser rfl rfl⟩

/-- C4 (counterexample): a live refresh-typed opaque token is accepted by
the validate-opaque route (which omits the `token_type="access"` filter)
while the opaque-mode CurrentUser dependency rejects the very same token —
so ValidateOpaque does not accept exactly what CurrentUser accepts, and
accepts a token that is not access-typed. -/
theorem validate_opaque_accepts_refresh_typed :
    (validate_opaque_token [wUser] [wOpaqueRefresh] "r1" 10).2 =
      .ok { valid := true, user_id := 1, email := "a@x.com"
            token_type := "refresh", expires_at := 100 } ∧
    (getCurrentUserOpaque [wUser] [wOpaqueRefresh] "r1" 10).2 =
      .error { status_code := 401, detail := ERROR_TOKEN_INVALID } :=
  ⟨rfl, rfl⟩

/-- C4 (amended): the validate-opaque route runs the same store-level
validation as the opaque CurrentUser dependency but WITHOUT the
access-type filter, so it accepts every token CurrentUser accepts — and
then returns the descriptive payload built from the user and the token row
— but it additionally accepts live refresh-typed tokens (the
counterexample).  Stated under the store's unique-token constraint. -/
theorem validate_opaque_superset_of_current_user :
    ∀ (db_users : List User) (db_ot : List OpaqueToken) (t : String) (now : Nat)
      (user : User),
      (db_ot.map (·.token)).Nodup →
      (getCurrentUserOpaque db_users db_ot t now).2 = .ok user →
      (validate_opaque_token db_users db_ot t now).2 =
        .ok { valid := true, user_id := user.id, email := user.email
              token_type := TOKEN_TYPE_ACCESS
              expires_at := (OpaqueTokenCRUD.get_opaque_token db_ot t
                  (some TOKEN_TYPE_ACCESS) now).2.elim 0 (·.expires_at) } := by
  intro dbu db t now user hnd h
  cases hfind : db.find? (fun r => OpaqueTokenCRUD.row_matches r t (some TOKEN_TYPE_ACCESS)) with
  | none =>
    exfalso
    have hget : OpaqueTokenCRUD.get_opaque_token db t (some TOKEN_TYPE_ACCESS) now =
        (db, none) := by
      unfold OpaqueTokenCRUD.get_opaque_token
      rw [hfind]
    simp [getCurrentUserOpaque, OpaqueTokenCRUD.validate_opaque_token, hget] at h
  | some row =>
    have hmem : row ∈ db := List.mem_of_find?_eq_some hfind
    have hm := List.find?_some hfind
    simp only [OpaqueTokenCRUD.row_matches, Bool.and_eq_true, beq_iff_eq] at hm
    obtain ⟨⟨htok, hrev⟩, htype⟩ := hm
    by_cases hexp : row.expires_at < now
    · exfalso
      have hget : OpaqueTokenCRUD.get_opaque_token db t (some TOKEN_TYPE_ACCESS) now =
          (db, none) := by
        unfold OpaqueTokenCRUD.get_opaque_token
        rw [hfind]
        simp [hexp]
      simp [getCurrentUserOpaque, OpaqueTokenCRUD.validate_opaque_token, hget] at h
    · have hget : OpaqueTokenCRUD.get_opaque_token db t (some TOKEN_TYPE_ACCESS) now =
          (OpaqueTokenCRUD.stamp_last_used db row.id now,
           some { row with last_used_at := some now }) := by
        unfold OpaqueTokenCRUD.get_opaque_token
        rw [hfind]
        simp [hexp]
      have hfind2 : db.find? (fun r => OpaqueTokenCRUD.row_matches r t none) = some row := by
        apply find?_eq_some_of_unique _ _ _ hmem
        · unfold OpaqueTokenCRUD.row_matches
          simp [htok, hrev]
        · intro x hx hpx
          unfold OpaqueTokenCRUD.row_matches at hpx
          simp only [Bool.and_eq_true, beq_iff_eq] at hpx
          exact eq_of_nodup_map _ db hnd x hx row hmem (hpx.1.1.trans htok.symm)
      have hget2 : OpaqueTokenCRUD.get_opaque_token db t none now =
          (OpaqueTokenCRUD.stamp_last_used db row.id now,
           some { row with last_used_at := some now }) := by
        unfold OpaqueTokenCRUD.get_opaque_token
        rw [hfind2]
        simp [hexp]
      cases huser : UserCRUD.get_user dbu row.user_id with
      | none =>
        exfalso
        simp [getCurrentUserOpaque, OpaqueTokenCRUD.validate_opaque_token, hget, huser] at h
      | some u =>
        simp [getCurrentUserOpaque, OpaqueTokenCRUD.validate_opaque_token, hget, huser] at h
        subst h
        simp [validate_opaque_token, OpaqueTokenCRUD.validate_opaque_token, hget, hget2,
          huser, htype]

/-- C4 witness: a live access-typed opaque token accepted by CurrentUser is
accepted by the validate-opaque route with the matching payload. -/
theorem validate_opaque_superset_witness :
    (validate_opaque_token [wUser] [wOpaqueAccess] "acc1" 10).2 =
      .ok { valid := true, user_id := wUser.id, email := wUser.email
            token_type := TOKEN_TYPE_ACCESS
            expires_at := (OpaqueTokenCRUD.get_opaque_token [wOpaqueAccess] "acc1"
                (some TOKEN_TYPE_ACCESS) 10).2.elim 0 (·.expires_at) } :=
  validate_opaque_superset_of_current_user [wUser] [wOpaqueAccess] "acc1" 10 wUser
    (by decide) rfl

/-- A successful insert appends exactly one live row carrying the given
token string. -/
theorem create_opaque_ok (db : List OpaqueToken) (uid : Nat) (tt tok : String)
    (nw : Nat) (hdup : ¬ db.any (fun x => x.token == tok) = true) :
    ∃ row, OpaqueTokenCRUD.create_opaque_token db uid tt tok nw =
        .ok (db ++ [row], row) ∧ row.token = tok ∧ row.is_revoked = false := by
  simp only [OpaqueTokenCRUD.create_opaque_token]
  rw [if_neg hdup]
  exact ⟨_, rfl, rfl, rfl⟩

/-- C3 (counterexample): a failed validation CAN mutate token state — the
JWT-mode refresh of a token whose stored row is past its expiry fails with
InvalidRefreshToken yet revokes the row, so the store after the failed call
differs from the store before it. -/
theorem failed_refresh_mutates_store :
    (refresh_token [wUser] [wExpiredRow] wTok 10).2 =
      .error InvalidRefreshTokenException ∧
    (refresh_token [wUser] [wExpiredRow] wTok 10).1 ≠ [wExpiredRow] := by
  refine ⟨rfl, ?_⟩
  decide

/-- C3 (amended): a failed validation never mutates a pre-existing row
other than the presented token's own row, but it is not always
side-effect-free.  The failure states are exactly these: the JWT-mode
Refresh leaves the store unchanged, or — on the present-but-expired path
(the counterexample) and on a rotation-insert failure after revoking —
with the presented token revoked; a store-level opaque validation that
returns None leaves the store exactly as it was; the ValidateOpaque route
and the opaque CurrentUser dependency leave it unchanged or with
`last_used_at` stamped on the valid presented row; and the opaque-mode
Refresh leaves it unchanged, stamped (user lookup failed), stamped with
the presented row revoked (its first insert failed), or additionally with
the one fresh access row its first insert had already committed (its
second insert failed). -/
theorem failed_validation_frame :
    (∀ (db_users : List User) (db_rt : List RefreshToken) (t : Jwt) (now : Nat)
       (e : HTTPException),
       (refresh_token db_users db_rt t now).2 = .error e →
       (refresh_token db_users db_rt t now).1 = db_rt ∨
       (refresh_token db_users db_rt t now).1 =
         (RefreshTokenCRUD.revoke_refresh_token db_rt t).1) ∧
    (∀ (db_ot : List OpaqueToken) (t : String) (token_type : Option String) (now : Nat),
       (OpaqueTokenCRUD.get_opaque_token db_ot t token_type now).2 = none →
       (OpaqueTokenCRUD.get_opaque_token db_ot t token_type now).1 = db_ot) ∧
    (∀ (db_users : List User) (db_ot : List OpaqueToken) (t : String) (now : Nat)
       (e : HTTPException),
       (validate_opaque_token db_users db_ot t now).2 = .error e →
       (validate_opaque_token db_users db_ot t now).1 = db_ot ∨
       ∃ row ∈ db_ot, row.token = t ∧ row.is_revoked = false ∧
         (validate_opaque_token db_users db_ot t now).1 =
           OpaqueTokenCRUD.stamp_last_used db_ot row.id now) ∧
    (∀ (db_users : List User) (db_ot : List OpaqueToken) (t : String) (now : Nat)
       (e : HTTPException),
       (getCurrentUserOpaque db_users db_ot t now).2 = .error e →
       (getCurrentUserOpaque db_users db_ot t now).1 = db_ot ∨
       ∃ row ∈ db_ot, row.token = t ∧ row.is_revoked = false ∧
         (getCurrentUserOpaque db_users db_ot t now).1 =
           OpaqueTokenCRUD.stamp_last_used db_ot row.id now) ∧
    (∀ (db_users : List User) (db_ot : List OpaqueToken) (t : String) (now : Nat)
       (freshA freshR : String) (e : HTTPException),
       (refreshOpaqueToken db_users db_ot t now freshA freshR).2 = .error e →
       (refreshOpaqueToken db_users db_ot t now freshA freshR).1 = db_ot ∨
       ∃ row ∈ db_ot, row.token = t ∧ row.is_revoked = false ∧
         ((refreshOpaqueToken db_users db_ot t now freshA freshR).1 =
            OpaqueTokenCRUD.stamp_last_used db_ot row.id now ∨
          (refreshOpaqueToken db_users db_ot t now freshA freshR).1 =
            (OpaqueTokenCRUD.revoke_opaque_token
              (OpaqueTokenCRUD.stamp_last_used db_ot row.id now) row.token).1 ∨
          ∃ rowA, rowA.token = freshA ∧ rowA.is_revoked = false ∧
            (refreshOpaqueToken db_users db_ot t now freshA freshR).1 =
              (OpaqueTokenCRUD.revoke_opaque_token
                (OpaqueTokenCRUD.stamp_last_used db_ot row.id now) row.token).1 ++
                [rowA])) := by
  refine ⟨?_, ?_, ?_, ?_, ?_⟩
  · intro dbu db t now e h
    cases hd : decode_token t now with
    | error e2 => left; simp [refresh_token, hd]
    | ok payload =>
      by_cases hty : payload.type = TOKEN_TYPE_REFRESH
      · cases hf : RefreshTokenCRUD.get_refresh_token db t with
        | none => left; simp [refresh_token, hd, hty, hf]
        | some row =>
          by_cases he : row.expires_at < now
          · right; simp [refresh_token, hd, hty, hf, he]
          · cases hu : UserCRUD.get_user_by_sub dbu payload.sub with
            | none => left; simp [refresh_token, hd, hty, hf, he, hu]
            | some user =>
              cases hc : RefreshTokenCRUD.create_refresh_token
                  ((RefreshTokenCRUD.revoke_refresh_token db t).1) user.id
                  (create_refresh_token (toString user.id) user.email now) now with
              | error e3 => right; simp [refresh_token, hd, hty, hf, he, hu, hc]
              | ok pr =>
                exfalso
                simp [refresh_token, hd, hty, hf, he, hu, hc] at h
      · left; simp [refresh_token, hd, hty]
  · intro db t token_type now h
    unfold OpaqueTokenCRUD.get_opaque_token at h ⊢
    cases hfind : db.find? (fun r => OpaqueTokenCRUD.row_matches r t token_type) with
    | none => rfl
    | some row =>
      rw [hfind] at h
      by_cases hexp : row.expires_at < now
      · simp [hexp]
      · simp [hexp] at h
  · intro dbu db t now e h
    cases hfind : db.find? (fun r => OpaqueTokenCRUD.row_matches r t none) with
    | none =>
      left
      have hget : OpaqueTokenCRUD.get_opaque_token db t none now = (db, none) := by
        unfold OpaqueTokenCRUD.get_opaque_token
        rw [hfind]
      simp [validate_opaque_token, OpaqueTokenCRUD.validate_opaque_token, hget]
    | some row =>
      have hmem : row ∈ db := List.mem_of_find?_eq_some hfind
      have hm := List.find?_some hfind
      simp only [OpaqueTokenCRUD.row_matches, Bool.and_eq_true, beq_iff_eq] at hm
      by_cases hexp : row.expires_at < now
      · left
        have hget : OpaqueTokenCRUD.get_opaque_token db t none now = (db, none) := by
          unfold OpaqueTokenCRUD.get_opaque_token
          rw [hfind]
          simp [hexp]
        simp [validate_opaque_token, OpaqueTokenCRUD.validate_opaque_token, hget]
      · right
        have hget : OpaqueTokenCRUD.get_opaque_token db t none now =
            (OpaqueTokenCRUD.stamp_last_used db row.id now,
             some { row with last_used_at := some now }) := by
          unfold OpaqueTokenCRUD.get_opaque_token
          rw [hfind]
          simp [hexp]
        refine ⟨row, hmem, hm.1.1, hm.1.2, ?_⟩
        simp [validate_opaque_token, OpaqueTokenCRUD.validate_opaque_token, hget]
        split <;> rfl
  · intro dbu db t now e h
    cases hfind : db.find? (fun r => OpaqueTokenCRUD.row_matches r t (some TOKEN_TYPE_ACCESS)) with
    | none =>
      left
      have hget : OpaqueTokenCRUD.get_opaque_token db t (some TOKEN_TYPE_ACCESS) now =
          (db, none) := by
        unfold OpaqueTokenCRUD.get_opaque_token
        rw [hfind]
      simp [getCurrentUserOpaque, OpaqueTokenCRUD.validate_opaque_token, hget]
    | some row =>
      have hmem : row ∈ db := List.mem_of_find?_eq_some hfind
      have hm := List.find?_some hfind
      simp only [OpaqueTokenCRUD.row_matches, Bool.and_eq_true, beq_iff_eq] at hm
      by_cases hexp : row.expires_at < now
      · left
        have hget : OpaqueTokenCRUD.get_opaque_token db t (some TOKEN_TYPE_ACCESS) now =
            (db, none) := by
          unfold OpaqueTokenCRUD.get_opaque_token
          rw [hfind]
          simp [hexp]
        simp [getCurrentUserOpaque, OpaqueTokenCRUD.validate_opaque_token, hget]
      · right
        have hget : OpaqueTokenCRUD.get_opaque_token db t (some TOKEN_TYPE_ACCESS) now =
            (OpaqueTokenCRUD.stamp_last_used db row.id now,
             some { row with last_used_at := some now }) := by
          unfold OpaqueTokenCRUD.get_opaque_token
          rw [hfind]
          simp [hexp]
        refine ⟨row, hmem, hm.1.1, hm.1.2, ?_⟩
        simp [getCurrentUserOpaque, OpaqueTokenCRUD.validate_opaque_token, hget]
        split <;> rfl
  · intro dbu db t now fa fr e h
    cases hfind : db.find? (fun r => OpaqueTokenCRUD.row_matches r t (some "refresh")) with
    | none =>
      left
      have hget : OpaqueTokenCRUD.get_opaque_token db t (some "refresh") now =
          (db, none) := by
        unfold OpaqueTokenCRUD.get_opaque_token
        rw [hfind]
      simp [refreshOpaqueToken, OpaqueTokenCRUD.validate_opaque_token, hget]
    | some rrow =>
      have hrmem : rrow ∈ db := List.mem_of_find?_eq_some hfind
      have hrm := List.find?_some hfind
      simp only [OpaqueTokenCRUD.row_matches, Bool.and_eq_true, beq_iff_eq] at hrm
      by_cases hexp : rrow.expires_at < now
      · left
        have hget : OpaqueTokenCRUD.get_opaque_token db t (some "refresh") now =
            (db, none) := by
          unfold OpaqueTokenCRUD.get_opaque_token
          rw [hfind]
          simp [hexp]
        simp [refreshOpaqueToken, OpaqueTokenCRUD.validate_opaque_token, hget]
      · have hget : OpaqueTokenCRUD.get_opaque_token db t (some "refresh") now =
            (OpaqueTokenCRUD.stamp_last_used db rrow.id now,
             some { rrow with last_used_at := some now }) := by
          unfold OpaqueTokenCRUD.get_opaque_token
          rw [hfind]
          simp [hexp]
        cases huser : UserCRUD.get_user dbu rrow.user_id with
        | none =>
          right
          refine ⟨rrow, hrmem, hrm.1.1, hrm.1.2, Or.inl ?_⟩
          simp [refreshOpaqueToken, OpaqueTokenCRUD.validate_opaque_token, hget, huser]
        | some user =>
          by_cases hdupA : ((OpaqueTokenCRUD.revoke_opaque_token
              (OpaqueTokenCRUD.stamp_last_used db rrow.id now) rrow.token).1).any
              (fun x => x.token == fa) = true
          · right
            refine ⟨rrow, hrmem, hrm.1.1, hrm.1.2, Or.inr (Or.inl ?_)⟩
            have hcA : OpaqueTokenCRUD.create_opaque_token
                ((OpaqueTokenCRUD.revoke_opaque_token
                  (OpaqueTokenCRUD.stamp_last_used db rrow.id now) rrow.token).1)
                user.id "access" fa now = .error .integrityError := by
              simp only [OpaqueTokenCRUD.create_opaque_token]
              rw [if_pos hdupA]
            simp [refreshOpaqueToken, OpaqueTokenCRUD.validate_opaque_token, hget,
              huser, hcA]
          · obtain ⟨rowA, hcA, hAtok, hArev⟩ := create_opaque_ok
              ((OpaqueTokenCRUD.revoke_opaque_token
                (OpaqueTokenCRUD.stamp_last_used db rrow.id now) rrow.token).1)
              user.id "access" fa now hdupA
            by_cases hdupR : (((OpaqueTokenCRUD.revoke_opaque_token
                (OpaqueTokenCRUD.stamp_last_used db rrow.id now) rrow.token).1) ++
                [rowA]).any (fun x => x.token == fr) = true
            · right
              refine ⟨rrow, hrmem, hrm.1.1, hrm.1.2,
                Or.inr (Or.inr ⟨rowA, hAtok, hArev, ?_⟩)⟩
              have hcR : OpaqueTokenCRUD.create_opaque_token
                  (((OpaqueTokenCRUD.revoke_opaque_token
                    (OpaqueTokenCRUD.stamp_last_used db rrow.id now) rrow.token).1) ++
                    [rowA])
                  user.id "refresh" fr now = .error .integrityError := by
                simp only [OpaqueTokenCRUD.create_opaque_token]
                rw [if_pos hdupR]
              simp [refreshOpaqueToken, OpaqueTokenCRUD.validate_opaque_token, hget,
                huser, hcA, hcR]
            · obtain ⟨rowR, hcR, hRtok, hRrev⟩ := create_opaque_ok
                (((OpaqueTokenCRUD.revoke_opaque_token
                  (OpaqueTokenCRUD.stamp_last_used db rrow.id now) rrow.token).1) ++
                  [rowA])
                user.id "refresh" fr now hdupR
              exfalso
              simp [refreshOpaqueToken, OpaqueTokenCRUD.validate_opaque_token, hget,
                huser, hcA, hcR] at h

/-- C3 witness: the amended frame applied at the expired-row fixture — the
failed refresh leaves the store either unchanged or exactly as revoking the
presented token leaves it. -/
theorem failed_validation_frame_witness :
    (refresh_token [wUser] [wExpiredRow] wTok 10).1 = [wExpiredRow] ∨
    (refresh_token [wUser] [wExpiredRow] wTok 10).1 =
      (RefreshTokenCRUD.revoke_refresh_token [wExpiredRow] wTok).1 :=
  failed_validation_frame.1 [wUser] [wExpiredRow] wTok 10
    InvalidRefreshTokenException rfl

/-- A token that decodes successfully is the well-signed token of exactly
the claims returned. -/
theorem decode_token_ok_inv (t : Jwt) (n : Nat) (p : JwtClaims)
    (h : decode_token t n = .ok p) :
    t = Jwt.signed p settings.JWT_SECRET_KEY settings.JWT_ALGORITHM := by
  cases t with
  | malformed raw => simp [decode_token, jose_decode] at h
  | signed c k a =>
    by_cases hk : k = settings.JWT_SECRET_KEY ∧ a = settings.JWT_ALGORITHM
    · by_cases he : c.exp < n
      · simp [decode_token, jose_decode, hk, he] at h
      · simp [decode_token, jose_decode, hk, he] at h
        rw [hk.1, hk.2, h]
    · simp [decode_token, jose_decode, hk] at h

/-- C2: when a JWT-mode Refresh succeeds, the store it leaves behind has
every row carrying the presented token revoked (the revocation happens in
the same operation that issues the new pair), and a second Refresh with the
same token — at any later or equal clock — fails with
InvalidRefreshToken.  Stated under the store's unique-token constraint;
the success of the first call itself guarantees the newly minted refresh
token differs from the presented one (a duplicate insert would have
violated the UNIQUE constraint and failed the call). -/
theorem refresh_rotation_single_use :
    ∀ (db_users : List User) (db_rt : List RefreshToken) (t : Jwt) (now now2 : Nat)
      (db1 : List RefreshToken) (resp : TokenResponse),
      (db_rt.map (·.token)).Nodup →
      refresh_token db_users db_rt t now = (db1, .ok resp) →
      (∀ r ∈ db1, r.token = t → r.is_revoked = true) ∧
      (refresh_token db_users db1 t now2).2 = .error InvalidRefreshTokenException := by
  intro dbu db t now now2 db1 resp hnd h
  cases hd : decode_token t now with
  | error e => simp [refresh_token, hd] at h
  | ok payload =>
    by_cases hty : payload.type = TOKEN_TYPE_REFRESH
    · cases hf : RefreshTokenCRUD.get_refresh_token db t with
      | none => simp [refresh_token, hd, hty, hf] at h
      | some row =>
        have hf' := hf
        unfold RefreshTokenCRUD.get_refresh_token at hf'
        have hrowmem : row ∈ db := List.mem_of_find?_eq_some hf'
        have hrowp := List.find?_some hf'
        simp only [Bool.and_eq_true, beq_iff_eq] at hrowp
        obtain ⟨hrowtok, -⟩ := hrowp
        by_cases he : row.expires_at < now
        · simp [refresh_token, hd, hty, hf, he] at h
        · cases hu : UserCRUD.get_user_by_sub dbu payload.sub with
          | none => simp [refresh_token, hd, hty, hf, he, hu] at h
          | some user =>
            cases hc : RefreshTokenCRUD.create_refresh_token
                ((RefreshTokenCRUD.revoke_refresh_token db t).1) user.id
                (create_refresh_token (toString user.id) user.email now) now with
            | error e3 => simp [refresh_token, hd, hty, hf, he, hu, hc] at h
            | ok pr =>
              simp [refresh_token, hd, hty, hf, he, hu, hc] at h
              obtain ⟨hdb1, -⟩ := h
              have hc' := hc
              unfold RefreshTokenCRUD.create_refresh_token at hc'
              by_cases hdup : ((RefreshTokenCRUD.revoke_refresh_token db t).1).any
                  (fun r => r.token == create_refresh_token (toString user.id) user.email now)
              · rw [if_pos hdup] at hc'
                cases hc'
              · rw [if_neg hdup] at hc'
                simp only [Except.ok.injEq] at hc'
                have hfresh :
                    create_refresh_token (toString user.id) user.email now ≠ t := by
                  intro heq
                  apply hdup
                  rw [List.any_eq_true]
                  have ht_mem : t ∈ ((RefreshTokenCRUD.revoke_refresh_token db t).1).map (·.token) := by
                    rw [revoke_refresh_tokens]
                    exact hrowtok ▸ List.mem_map_of_mem _ hrowmem
                  obtain ⟨r2, hr2mem, hr2tok⟩ := List.mem_map.mp ht_mem
                  exact ⟨r2, hr2mem, by simp [hr2tok, heq]⟩
                have hpr1 : pr.1 = (RefreshTokenCRUD.revoke_refresh_token db t).1 ++
                    [{ id := next_id (((RefreshTokenCRUD.revoke_refresh_token db t).1).map (·.id))
                       user_id := user.id
                       token := create_refresh_token (toString user.id) user.email now
                       expires_at := now + REFRESH_TTL_MINUTES, is_revoked := false
                       created_at := now }] := by
                  rw [← hc']
                have hall : ∀ r ∈ db1, r.token = t → r.is_revoked = true := by
                  intro r hr hrt
                  rw [← hdb1, hpr1] at hr
                  rcases List.mem_append.mp hr with hr0 | hrnew
                  · exact revoke_refresh_all_revoked db t hnd r hr0 hrt
                  · exfalso
                    apply hfresh
                    have : r.token = create_refresh_token (toString user.id) user.email now := by
                      rcases List.mem_singleton.mp hrnew with rfl
                      rfl
                    rw [← this, hrt]
                refine ⟨hall, ?_⟩
                have hf2 : RefreshTokenCRUD.get_refresh_token db1 t = none :=
                  get_refresh_none db1 t hall
                cases hd2 : decode_token t now2 with
                | error e2 => simp [refresh_token, hd2]
                | ok p2 =>
                  have e1 := decode_token_ok_inv t now payload hd
                  have e2 := decode_token_ok_inv t now2 p2 hd2
                  rw [e1] at e2
                  have hp2 : p2 = payload := by
                    cases e2
                    rfl
                  have hty2 : p2.type = TOKEN_TYPE_REFRESH := by rw [hp2]; exact hty
                  simp [refresh_token, hd2, hty2, hf2]
    · simp [refresh_token, hd, hty] at h

/-- C2 witness: a concrete full rotation — login-issued token `wTok` stored
live in the store, refreshed successfully at time 10; the store the call
leaves has `wTok` revoked, and refreshing `wTok` again at time 20 fails
with InvalidRefreshToken. -/
theorem refresh_rotation_single_use_witness :
    (∀ r ∈ ([{ id := 1, user_id := 1, token := wTok, expires_at := 50
               is_revoked := true, created_at := 0 },
             { id := 2, user_id := 1, token := create_refresh_token "1" "a@x.com" 10
               expires_at := 10090, is_revoked := false
               created_at := 10 }] : List RefreshToken),
        r.token = wTok → r.is_revoked = true) ∧
    (refresh_token [wUser]
        [{ id := 1, user_id := 1, token := wTok, expires_at := 50
           is_revoked := true, created_at := 0 },
         { id := 2, user_id := 1, token := create_refresh_token "1" "a@x.com" 10
           expires_at := 10090, is_revoked := false, created_at := 10 }] wTok 20).2 =
      .error InvalidRefreshTokenException :=
  refresh_rotation_single_use [wUser] [wRow] wTok 10 20
    [{ id := 1, user_id := 1, token := wTok, expires_at := 50
       is_revoked := true, created_at := 0 },
     { id := 2, user_id := 1, token := create_refresh_token "1" "a@x.com" 10
       expires_at := 10090, is_revoked := false, created_at := 10 }]
    { access_token := create_access_token "1" "a@x.com" 10
      refresh_token := create_refresh_token "1" "a@x.com" 10
      token_type := "bearer" }
    (by decide) rfl

/-- A row of a stamped store comes from a row of the store with the same
token and revocation flag. -/
theorem mem_stamp (db : List OpaqueToken) (i nw : Nat) (r : OpaqueToken)
    (hr : r ∈ OpaqueTokenCRUD.stamp_last_used db i nw) :
    ∃ r0 ∈ db, r.token = r0.token ∧ r.is_revoked = r0.is_revoked := by
  unfold OpaqueTokenCRUD.stamp_last_used at hr
  obtain ⟨r0, hr0, hfr⟩ := List.mem_map.mp hr
  refine ⟨r0, hr0, ?_⟩
  rw [← hfr]
  by_cases h : r0.id = i <;> simp [h]

/-- A row of the store after `revoke_opaque_token` is either an original
row or an original row with its flag set. -/
theorem mem_revoke_opaque (db : List OpaqueToken) (tok : String) (r : OpaqueToken)
    (hr : r ∈ (OpaqueTokenCRUD.revoke_opaque_token db tok).1) :
    r ∈ db ∨ ∃ r0 ∈ db, r = { r0 with is_revoked := true } := by
  induction db with
  | nil => cases hr
  | cons a rest ih =>
    by_cases h : a.token == tok
    · simp only [OpaqueTokenCRUD.revoke_opaque_token, h, if_pos] at hr
      rcases List.mem_cons.mp hr with hra | hrr
      · exact Or.inr ⟨a, List.mem_cons_self a rest, hra⟩
      · exact Or.inl (List.mem_cons_of_mem a hrr)
    · simp only [OpaqueTokenCRUD.revoke_opaque_token, h, Bool.false_eq_true,
        if_false] at hr
      rcases List.mem_cons.mp hr with hra | hrr
      · exact Or.inl (hra ▸ List.mem_cons_self a rest)
      · rcases ih hrr with h1 | ⟨r0, hr0, he⟩
        · exact Or.inl (List.mem_cons_of_mem a h1)
        · exact Or.inr ⟨r0, List.mem_cons_of_mem a hr0, he⟩

/-- A row of the store after `revoke_refresh_token` is either an original
row or an original row with its flag set. -/
theorem mem_revoke_refresh (db : List RefreshToken) (tok : Jwt) (r : RefreshToken)
    (hr : r ∈ (RefreshTokenCRUD.revoke_refresh_token db tok).1) :
    r ∈ db ∨ ∃ r0 ∈ db, r = { r0 with is_revoked := true } := by
  induction db with
  | nil => cases hr
  | cons a rest ih =>
    by_cases h : a.token == tok
    · simp only [RefreshTokenCRUD.revoke_refresh_token, h, if_pos] at hr
      rcases List.mem_cons.mp hr with hra | hrr
      · exact Or.inr ⟨a, List.mem_cons_self a rest, hra⟩
      · exact Or.inl (List.mem_cons_of_mem a hrr)
    · simp only [RefreshTokenCRUD.revoke_refresh_token, h, Bool.false_eq_true,
        if_false] at hr
      rcases List.mem_cons.mp hr with hra | hrr
      · exact Or.inl (hra ▸ List.mem_cons_self a rest)
      · rcases ih hrr with h1 | ⟨r0, hr0, he⟩
        · exact Or.inl (List.mem_cons_of_mem a h1)
        · exact Or.inr ⟨r0, List.mem_cons_of_mem a hr0, he⟩

/-- The store a lookup leaves behind is the original store or a stamped
copy of it. -/
theorem get_opaque_state (db : List OpaqueToken) (tok : String)
    (token_type : Option String) (nw : Nat) :
    (OpaqueTokenCRUD.get_opaque_token db tok token_type nw).1 = db ∨
    ∃ i, (OpaqueTokenCRUD.get_opaque_token db tok token_type nw).1 =
      OpaqueTokenCRUD.stamp_last_used db i nw := by
  unfold OpaqueTokenCRUD.get_opaque_token
  cases hf : db.find? (fun r => OpaqueTokenCRUD.row_matches r tok token_type) with
  | none => exact Or.inl rfl
  | some row =>
    by_cases he : row.expires_at < nw
    · exact Or.inl (by simp [he])
    · exact Or.inr ⟨row.id, by simp [he]⟩

/-- One opaque-store operation that does not insert the token string `t`
keeps every row carrying `t` revoked. -/
theorem opaque_step_preserves_revoked (op : OpaqueStoreOp) (db : List OpaqueToken)
    (t : String) (hop : op.creates t = false)
    (h : ∀ r ∈ db, r.token = t → r.is_revoked = true) :
    ∀ r ∈ op.apply db, r.token = t → r.is_revoked = true := by
  cases op with
  | create uid tt tok nw =>
    intro r hr hrt
    have hne : tok ≠ t := by
      intro he
      rw [he] at hop
      simp [OpaqueStoreOp.creates] at hop
    simp only [OpaqueStoreOp.apply] at hr
    by_cases hdup : db.any (fun x => x.token == tok)
    · have hc : OpaqueTokenCRUD.create_opaque_token db uid tt tok nw =
          .error .integrityError := by
        unfold OpaqueTokenCRUD.create_opaque_token
        rw [if_pos hdup]
      simp [hc] at hr
      exact h r hr hrt
    · have hr2 : r ∈ db ∨ r.token = tok := by
        simp only [OpaqueTokenCRUD.create_opaque_token] at hr
        rw [if_neg hdup] at hr
        simp [List.mem_append] at hr
        rcases hr with h0 | h1
        · exact Or.inl h0
        · exact Or.inr (h1 ▸ rfl)
      rcases hr2 with h0 | h1
      · exact h r h0 hrt
      · exact absurd (h1.symm.trans hrt) hne
  | validate tok tt nw =>
    intro r hr hrt
    simp only [OpaqueStoreOp.apply] at hr
    rcases get_opaque_state db tok tt nw with hs | ⟨i, hs⟩
    · rw [hs] at hr
      exact h r hr hrt
    · rw [hs] at hr
      obtain ⟨r0, hr0, htk, hrv⟩ := mem_stamp db i nw r hr
      rw [hrv]
      exact h r0 hr0 (htk ▸ hrt)
  | revoke tok =>
    intro r hr hrt
    simp only [OpaqueStoreOp.apply] at hr
    rcases mem_revoke_opaque db tok r hr with h0 | ⟨r0, hr0, he⟩
    · exact h r h0 hrt
    · rw [he]
  | revokeAll uid tt =>
    intro r hr hrt
    simp only [OpaqueStoreOp.apply, OpaqueTokenCRUD.revoke_all_user_tokens] at hr
    obtain ⟨r0, hr0, hfr⟩ := List.mem_map.mp hr
    split at hfr
    · rw [← hfr]
    · rw [← hfr] at hrt ⊢
      exact h r0 hr0 hrt
  | cleanup nw =>
    intro r hr hrt
    simp only [OpaqueStoreOp.apply, OpaqueTokenCRUD.cleanup_expired_tokens] at hr
    exact h r (List.mem_of_mem_filter hr) hrt

/-- One refresh-store operation that does not insert the token string `t`
keeps every row carrying `t` revoked. -/
theorem refresh_step_preserves_revoked (op : RefreshStoreOp) (db : List RefreshToken)
    (t : Jwt) (hop : op.creates t = false)
    (h : ∀ r ∈ db, r.token = t → r.is_revoked = true) :
    ∀ r ∈ op.apply db, r.token = t → r.is_revoked = true := by
  cases op with
  | create uid tok nw =>
    intro r hr hrt
    have hne : tok ≠ t := by
      intro he
      rw [he] at hop
      simp [RefreshStoreOp.creates] at hop
    simp only [RefreshStoreOp.apply] at hr
    by_cases hdup : db.any (fun x => x.token == tok)
    · have hc : RefreshTokenCRUD.create_refresh_token db uid tok nw =
          .error .integrityError := by
        unfold RefreshTokenCRUD.create_refresh_token
        rw [if_pos hdup]
      simp [hc] at hr
      exact h r hr hrt
    · have hr2 : r ∈ db ∨ r.token = tok := by
        simp only [RefreshTokenCRUD.create_refresh_token] at hr
        rw [if_neg hdup] at hr
        simp [List.mem_append] at hr
        rcases hr with h0 | h1
        · exact Or.inl h0
        · exact Or.inr (h1 ▸ rfl)
      rcases hr2 with h0 | h1
      · exact h r h0 hrt
      · exact absurd (h1.symm.trans hrt) hne
  | revoke tok =>
    intro r hr hrt
    simp only [RefreshStoreOp.apply] at hr
    rcases mem_revoke_refresh db tok r hr with h0 | ⟨r0, hr0, he⟩
    · exact h r h0 hrt
    · rw [he]
  | revokeAll uid =>
    intro r hr hrt
    simp only [RefreshStoreOp.apply, RefreshTokenCRUD.revoke_all_user_tokens] at hr
    obtain ⟨r0, hr0, hfr⟩ := List.mem_map.mp hr
    split at hfr
    · rw [← hfr]
    · rw [← hfr] at hrt ⊢
      exact h r0 hr0 hrt
  | cleanup nw =>
    intro r hr hrt
    simp only [RefreshStoreOp.apply, RefreshTokenCRUD.cleanup_expired_tokens] at hr
    exact h r (List.mem_of_mem_filter hr) hrt

/-- C8: in both stores, revocation is one-way — whatever sequence of store
operations runs afterwards (with the freshly generated tokens of `create`
calls never repeating the string, as `generate_token` guarantees), every
row carrying a revoked token string stays revoked, and every lookup of
that string — under any type filter and any clock, however far its
`expires_at` may still lie in the future — returns None. -/
theorem revocation_one_way :
    (∀ (t : String) (ops : List OpaqueStoreOp) (db : List OpaqueToken),
       (∀ op ∈ ops, op.creates t = false) →
       (∀ r ∈ db, r.token = t → r.is_revoked = true) →
       (∀ r ∈ ops.foldl (fun s op => op.apply s) db, r.token = t → r.is_revoked = true) ∧
       (∀ (token_type : Option String) (now : Nat),
         (OpaqueTokenCRUD.get_opaque_token (ops.foldl (fun s op => op.apply s) db)
             t token_type now).2 = none)) ∧
    (∀ (t : Jwt) (ops : List RefreshStoreOp) (db : List RefreshToken),
       (∀ op ∈ ops, op.creates t = false) →
       (∀ r ∈ db, r.token = t → r.is_revoked = true) →
       (∀ r ∈ ops.foldl (fun s op => op.apply s) db, r.token = t → r.is_revoked = true) ∧
       RefreshTokenCRUD.get_refresh_token (ops.foldl (fun s op => op.apply s) db) t = none) := by
  constructor
  · intro t ops
    induction ops with
    | nil =>
      intro db _ h
      exact ⟨h, fun token_type now => get_opaque_none db t token_type now h⟩
    | cons op rest ih =>
      intro db hfresh h
      have hstep := opaque_step_preserves_revoked op db t
        (hfresh op (List.mem_cons_self op rest)) h
      exact ih (op.apply db)
        (fun o ho => hfresh o (List.mem_cons_of_mem op ho)) hstep
  · intro t ops
    induction ops with
    | nil =>
      intro db _ h
      exact ⟨h, get_refresh_none db t h⟩
    | cons op rest ih =>
      intro db hfresh h
      have hstep := refresh_step_preserves_revoked op db t
        (hfresh op (List.mem_cons_self op rest)) h
      exact ih (op.apply db)
        (fun o ho => hfresh o (List.mem_cons_of_mem op ho)) hstep

/-- C8 witness: the revoked fixture row's token still resolves to None
after a revoke of another token, a cleanup, a fresh insert and a
validation, at a clock well before its expiry. -/
theorem revocation_one_way_witness :
    (OpaqueTokenCRUD.get_opaque_token
        (([OpaqueStoreOp.revoke "r1", OpaqueStoreOp.cleanup 5,
           OpaqueStoreOp.create 1 "access" "fresh" 6,
           OpaqueStoreOp.validate "dead" none 7]).foldl
          (fun s op => op.apply s) [wRevokedRow, wOpaqueRefresh])
        "dead" none 50).2 = none :=
  ((revocation_one_way.1 "dead"
      [OpaqueStoreOp.revoke "r1", OpaqueStoreOp.cleanup 5,
       OpaqueStoreOp.create 1 "access" "fresh" 6,
       OpaqueStoreOp.validate "dead" none 7]
      [wRevokedRow, wOpaqueRefresh] (by decide) (by decide)).2) none 50

/-- Stamping keeps the token column unchanged. -/
theorem stamp_tokens (db : List OpaqueToken) (i nw : Nat) :
    (OpaqueTokenCRUD.stamp_last_used db i nw).map (·.token) = db.map (·.token) := by
  unfold OpaqueTokenCRUD.stamp_last_used
  rw [List.map_map]
  apply List.map_congr_left
  intro r _
  by_cases h : r.id = i <;> simp [h]

/-- A row whose primary key differs from the stamped one is untouched by
the stamp. -/
theorem mem_stamp_of_ne (db : List OpaqueToken) (i nw : Nat) (r : OpaqueToken)
    (hr : r ∈ db) (hid : r.id ≠ i) :
    r ∈ OpaqueTokenCRUD.stamp_last_used db i nw := by
  unfold OpaqueTokenCRUD.stamp_last_used
  have h2 := List.mem_map_of_mem
    (fun x => if x.id == i then { x with last_used_at := some nw } else x) hr
  simpa [hid] using h2

/-- A row carrying a different token string is untouched by a revoke. -/
theorem mem_revoke_opaque_of_ne (db : List OpaqueToken) (tok : String)
    (r : OpaqueToken) (hr : r ∈ db) (hne : r.token ≠ tok) :
    r ∈ (OpaqueTokenCRUD.revoke_opaque_token db tok).1 := by
  induction db with
  | nil => cases hr
  | cons a rest ih =>
    rcases List.mem_cons.mp hr with hra | hrr
    · by_cases h : a.token == tok
      · exfalso
        apply hne
        rw [hra]
        simpa using h
      · simp only [OpaqueTokenCRUD.revoke_opaque_token, h, Bool.false_eq_true, if_false]
        rw [hra]
        exact List.mem_cons_self _ _
    · by_cases h : a.token == tok
      · simp only [OpaqueTokenCRUD.revoke_opaque_token, h, if_pos]
        exact List.mem_cons_of_mem _ hrr
      · simp only [OpaqueTokenCRUD.revoke_opaque_token, h, Bool.false_eq_true, if_false]
        exact List.mem_cons_of_mem _ (ih hrr)

/-- C10: a successful opaque-mode Refresh touches no existing row other
than the presented refresh token's: every other row of the store — in
particular a still-live access token issued alongside it — survives in the
resulting store completely unchanged (token, type, expiry, revocation flag
and `last_used_at` all intact), and validating that row's token in the
resulting store still succeeds until its own expiry.  Stated under the
store's unique-token and unique-id (primary key) constraints. -/
theorem refresh_opaque_frame :
    ∀ (db_users : List User) (db_ot : List OpaqueToken) (t : String) (now : Nat)
      (freshA freshR : String) (db3 : List OpaqueToken) (resp : OpaqueTokenResponse),
      (db_ot.map (·.token)).Nodup →
      (db_ot.map (·.id)).Nodup →
      refreshOpaqueToken db_users db_ot t now freshA freshR = (db3, .ok resp) →
      ∀ row ∈ db_ot, row.token ≠ t →
        row ∈ db3 ∧
        (∀ now2, row.is_revoked = false → ¬ row.expires_at < now2 →
          (OpaqueTokenCRUD.get_opaque_token db3 row.token none now2).2 =
            some { row with last_used_at := some now2 }) := by
  intro dbu db t now fa fr db3 resp hndtok hndid h row hrowmem hrowne
  cases hfind : db.find? (fun r => OpaqueTokenCRUD.row_matches r t (some "refresh")) with
  | none =>
    exfalso
    have hget : OpaqueTokenCRUD.get_opaque_token db t (some "refresh") now = (db, none) := by
      unfold OpaqueTokenCRUD.get_opaque_token
      rw [hfind]
    simp [refreshOpaqueToken, OpaqueTokenCRUD.validate_opaque_token, hget] at h
  | some rrow =>
    have hrmem : rrow ∈ db := List.mem_of_find?_eq_some hfind
    have hrm := List.find?_some hfind
    simp only [OpaqueTokenCRUD.row_matches, Bool.and_eq_true, beq_iff_eq] at hrm
    obtain ⟨⟨hrtok, hrrev⟩, hrtype⟩ := hrm
    by_cases hexp : rrow.expires_at < now
    · exfalso
      have hget : OpaqueTokenCRUD.get_opaque_token db t (some "refresh") now = (db, none) := by
        unfold OpaqueTokenCRUD.get_opaque_token
        rw [hfind]
        simp [hexp]
      simp [refreshOpaqueToken, OpaqueTokenCRUD.validate_opaque_token, hget] at h
    · have hget : OpaqueTokenCRUD.get_opaque_token db t (some "refresh") now =
          (OpaqueTokenCRUD.stamp_last_used db rrow.id now,
           some { rrow with last_used_at := some now }) := by
        unfold OpaqueTokenCRUD.get_opaque_token
        rw [hfind]
        simp [hexp]
      cases huser : UserCRUD.get_user dbu rrow.user_id with
      | none =>
        exfalso
        simp [refreshOpaqueToken, OpaqueTokenCRUD.validate_opaque_token, hget, huser] at h
      | some user =>
        have hdb1tok :
            ((OpaqueTokenCRUD.revoke_opaque_token
                (OpaqueTokenCRUD.stamp_last_used db rrow.id now) rrow.token).1).map (·.token) =
              db.map (·.token) := by
          rw [revoke_opaque_tokens, stamp_tokens]
        by_cases hdupA : ((OpaqueTokenCRUD.revoke_opaque_token
            (OpaqueTokenCRUD.stamp_last_used db rrow.id now) rrow.token).1).any
            (fun x => x.token == fa) = true
        · exfalso
          have hcA : OpaqueTokenCRUD.create_opaque_token
              ((OpaqueTokenCRUD.revoke_opaque_token
                (OpaqueTokenCRUD.stamp_last_used db rrow.id now) rrow.token).1)
              user.id "access" fa now = .error .integrityError := by
            simp only [OpaqueTokenCRUD.create_opaque_token]
            rw [if_pos hdupA]
          simp [refreshOpaqueToken, OpaqueTokenCRUD.validate_opaque_token, hget, huser,
            hcA] at h
        · obtain ⟨rowA, hcA, hAtok, hArev⟩ := create_opaque_ok
            ((OpaqueTokenCRUD.revoke_opaque_token
              (OpaqueTokenCRUD.stamp_last_used db rrow.id now) rrow.token).1)
            user.id "access" fa now hdupA
          by_cases hdupR : (((OpaqueTokenCRUD.revoke_opaque_token
              (OpaqueTokenCRUD.stamp_last_used db rrow.id now) rrow.token).1) ++ [rowA]).any
              (fun x => x.token == fr) = true
          · exfalso
            have hcR : OpaqueTokenCRUD.create_opaque_token
                (((OpaqueTokenCRUD.revoke_opaque_token
                  (OpaqueTokenCRUD.stamp_last_used db rrow.id now) rrow.token).1) ++ [rowA])
                user.id "refresh" fr now = .error .integrityError := by
              simp only [OpaqueTokenCRUD.create_opaque_token]
              rw [if_pos hdupR]
            simp [refreshOpaqueToken, OpaqueTokenCRUD.validate_opaque_token, hget, huser,
              hcA, hcR] at h
          · obtain ⟨rowR, hcR, hRtok, hRrev⟩ := create_opaque_ok
              (((OpaqueTokenCRUD.revoke_opaque_token
                (OpaqueTokenCRUD.stamp_last_used db rrow.id now) rrow.token).1) ++ [rowA])
              user.id "refresh" fr now hdupR
            simp [refreshOpaqueToken, OpaqueTokenCRUD.validate_opaque_token, hget, huser,
              hcA, hcR] at h
            obtain ⟨hdb3, -⟩ := h
            -- the presented row and the frame row are different rows
            have hrowner : row.token ≠ rrow.token := by rw [hrtok]; exact hrowne
            have hidne : row.id ≠ rrow.id := by
              intro he
              exact hrowner (congrArg (·.token)
                (eq_of_nodup_map (·.id) db hndid row hrowmem rrow hrmem he))
            have hmem1 : row ∈ OpaqueTokenCRUD.stamp_last_used db rrow.id now :=
              mem_stamp_of_ne db rrow.id now row hrowmem hidne
            have hmem2 : row ∈ (OpaqueTokenCRUD.revoke_opaque_token
                (OpaqueTokenCRUD.stamp_last_used db rrow.id now) rrow.token).1 :=
              mem_revoke_opaque_of_ne _ rrow.token row hmem1 hrowner
            have hmem3 : row ∈ db3 := by
              rw [← hdb3]
              exact List.mem_append_left _ hmem2
            refine ⟨hmem3, ?_⟩
            intro now2 hrev2 hexp2
            -- fresh tokens are genuinely fresh relative to the old store
            have hfa_notin : fa ∉ db.map (·.token) := by
              intro hin
              apply hdupA
              rw [List.any_eq_true]
              rw [← hdb1tok] at hin
              obtain ⟨x, hx, hxtok⟩ := List.mem_map.mp hin
              exact ⟨x, hx, by simp [hxtok]⟩
            have hfr_notin : fr ∉ db.map (·.token) ∧ fr ≠ fa := by
              constructor
              · intro hin
                apply hdupR
                rw [List.any_eq_true]
                rw [← hdb1tok] at hin
                obtain ⟨x, hx, hxtok⟩ := List.mem_map.mp hin
                exact ⟨x, List.mem_append_left _ hx, by simp [hxtok]⟩
              · intro he
                apply hdupR
                rw [List.any_eq_true]
                exact ⟨rowA, List.mem_append_right _ (List.mem_singleton_self rowA),
                  by simp [hAtok, he]⟩
            have hnd3 : (db3.map (·.token)).Nodup := by
              rw [← hdb3]
              simp only [List.map_append, List.map_cons, List.map_nil, hdb1tok,
                hAtok, hRtok]
              rw [List.nodup_append]
              refine ⟨hndtok, ?_, ?_⟩
              · simp [List.nodup_cons, hfr_notin.2.symm]
              · intro x hx hx2
                rcases List.mem_cons.mp hx2 with hxa | hxr
                · exact hfa_notin (hxa ▸ hx)
                · rcases List.mem_singleton.mp hxr with rfl
                  exact hfr_notin.1 hx
            have hfind3 : db3.find?
                (fun x => OpaqueTokenCRUD.row_matches x row.token none) = some row := by
              apply find?_eq_some_of_unique _ _ _ hmem3
              · simp [OpaqueTokenCRUD.row_matches, hrev2]
              · intro x hx hpx
                simp only [OpaqueTokenCRUD.row_matches, Bool.and_eq_true,
                  beq_iff_eq] at hpx
                exact eq_of_nodup_map (·.token) db3 hnd3 x hx row hmem3 hpx.1.1
            unfold OpaqueTokenCRUD.get_opaque_token
            rw [hfind3]
            simp [hexp2]

/-- C10 witness: refreshing the opaque refresh token "r1" at time 10 leaves
the sibling access token row `wOpaqueAccess` in the store untouched, and
validating "acc1" at time 20 — before its expiry at 40 — still succeeds. -/
theorem refresh_opaque_frame_witness :
    wOpaqueAccess ∈ (refreshOpaqueToken [wUser] [wOpaqueRefresh, wOpaqueAccess]
        "r1" 10 "newacc" "newref").1 ∧
    (OpaqueTokenCRUD.get_opaque_token
        (refreshOpaqueToken [wUser] [wOpaqueRefresh, wOpaqueAccess]
          "r1" 10 "newacc" "newref").1
        wOpaqueAccess.token none 20).2 =
      some { wOpaqueAccess with last_used_at := some 20 } := by
  have h := refresh_opaque_frame [wUser] [wOpaqueRefresh, wOpaqueAccess] "r1" 10
    "newacc" "newref"
    (refreshOpaqueToken [wUser] [wOpaqueRefresh, wOpaqueAccess]
      "r1" 10 "newacc" "newref").1
    { access_token := "newacc", refresh_token := "newref", token_type := "bearer" }
    (by decide) (by decide) rfl wOpaqueAccess (by decide) (by decide)
  exact ⟨h.1, h.2 20 (by decide) (by decide)⟩

end UsersService
